import Mathlib

/-!
Shallow embedding of the clipboard-monitoring pipeline of MeDott29/llama-stack:
`src/llama-stack-clipboard.py` and `src/experimental/novelty_tracker.py`.

Python strings are Lean `String`s.  The Python string primitives the code uses
(`str.split` on a one-character separator, `str.strip`, `in`, `len`,
`str.startswith`, `str.count`) are given executable structural-recursive
models over the string's character list, so every concrete run can be checked
by the kernel.  Python `float` arithmetic is modelled by exact rationals;
`collections.Counter` is modelled as the list of observed elements (the
counter's entry for `k` is the count of `k` in that list); the one file
write the tracker attempts (`_save_baseline_metrics`) can never complete,
because it reads an undefined module global, and is modelled as the
`NameError` it raises.
-/

namespace LlamaStack

instance {ε α : Type _} [DecidableEq ε] [DecidableEq α] : DecidableEq (Except ε α) :=
  fun a b =>
  match a, b with
  | .ok a, .ok b =>
    if h : a = b then .isTrue (h ▸ rfl) else .isFalse (fun hh => h (Except.ok.inj hh))
  | .error e, .error f =>
    if h : e = f then .isTrue (h ▸ rfl) else .isFalse (fun hh => h (Except.error.inj hh))
  | .ok _, .error _ => .isFalse (fun hh => Except.noConfusion hh)
  | .error _, .ok _ => .isFalse (fun hh => Except.noConfusion hh)

/-- Python `s.split(sep)` for a one-character separator `sep`, over character
lists: splits at every occurrence, keeping empty groups. -/
def splitOnChar (sep : Char) : List Char → List (List Char)
  | [] => [[]]
  | a :: rest =>
    match splitOnChar sep rest with
    | [] => [[]]
    | grp :: gs => if a = sep then [] :: grp :: gs else (a :: grp) :: gs

/-- Python `s.split(sep)` for a one-character separator, on `String`. -/
def pySplit (sep : Char) (s : String) : List String :=
  (splitOnChar sep s.data).map String.mk

/-- Python `str.strip()` with the ASCII whitespace characters the repository's
inputs can contain. -/
def pyStrip (s : String) : String :=
  .mk (((s.data.dropWhile Char.isWhitespace).reverse.dropWhile Char.isWhitespace).reverse)

/-- Python `c in s` for a single character. -/
def pyContains (c : Char) (s : String) : Bool := s.data.contains c

/-- Python `len(s)`: the number of characters. -/
def pyLen (s : String) : Nat := s.data.length

/-- Python `s.startswith(p)`. -/
def pyStartsWith (p s : String) : Bool := p.data.isPrefixOf s.data

/-- Python `"\n".join(l)` / `sep.join(l)`. -/
def pyJoin (sep : String) (l : List String) : String := String.intercalate sep l

/-- `PERFORMANCE_CONFIG["baseline_period"]` from `experimental/novelty_tracker.py`. -/
def baseline_period : Nat := 100

/-- `PERFORMANCE_CONFIG["history_size"]` from `experimental/novelty_tracker.py`. -/
def history_size : Nat := 1000

/-- One value of the `response_dict` argument of `NoveltyTracker.add_response`:
`some txt` models a dict value that is itself a dict with a `'response'` key
holding text `txt`; `none` models any other value, which the
`isinstance(..., dict) and 'response' in ...` guard skips. -/
abbrev AgentVal := Option String

/-- A `response_dict`: its `.values()` in insertion order. -/
abbrev RespDict := List AgentVal

/-- The list comprehension
`[line.strip().split(':') for line in text.split('\n') if ':' in line]`
shared by `NoveltyTracker.add_response` and `NoveltyTracker.get_novelty_score`. -/
def rawPairs (text : String) : List (List String) :=
  ((pySplit '\n' text).filter (fun l => pyContains ':' l)).map
    (fun l => pySplit ':' (pyStrip l))

/-- Python tuple unpacking `for k, v in pairs`: it succeeds only when every
element has exactly two components; otherwise the loop raises `ValueError`
at the offending element and the enclosing call aborts. -/
def unpackPairs : List (List String) → Except String (List (String × String))
  | [] => .ok []
  | [k, v] :: rest => (unpackPairs rest).map (fun ps => (k, v) :: ps)
  | _ => .error "ValueError: not enough / too many values to unpack"

/-- State of `NoveltyTracker` (`experimental/novelty_tracker.py`, lines 33–50).
`key_frequency` / `value_frequency` are `Counter`s modelled as observation
lists.  The attention fields only feed the *content* of the baseline
snapshot, which can never be written (see `processPair`), and every call
site in the repository passes `attention_matrix=None`, so they are not
modelled. -/
structure NoveltyTracker where
  response_history : List RespDict := []
  key_frequency : List String := []
  value_frequency : List String := []
  unique_keys : List String := []
  unique_values : List String := []
  response_lengths : List Nat := []
  responses_processed : Nat := 0
  isBaselinePeriod : Bool := true
  deriving Repr, DecidableEq

/-- A freshly constructed `NoveltyTracker()`. -/
def NoveltyTracker.init : NoveltyTracker := {}

/-- The exception every call of `_save_baseline_metrics` raises: its first
statement (novelty_tracker.py line 104) reads the module global
`DATASET_FILE`, which is never defined or imported in
`experimental/novelty_tracker.py`, so the name lookup fails before any file
is opened. -/
def nameErrorMsg : String := "NameError: name \x27DATASET_FILE\x27 is not defined"

/-- Body of the `for k, v in pairs` loop of `add_response` (lines 63–84):
strip, frequency update and baseline accumulation.  When
`responses_processed` reaches `baseline_period`, the code calls
`self._save_baseline_metrics()` (line 83), which raises `NameError` (see
`nameErrorMsg`): the latch assignment `is_baseline_period = False` on line
84 is never reached, no snapshot is ever persisted, and the exception
propagates out of `add_response`.  (Python leaves the mutations made before
the raise in place on the shared tracker object; no claim inspects the
state after an exception, so the error result carries no state.) -/
def processPair (pairsLen : Nat) (t : NoveltyTracker) (kv : String × String) :
    Except String NoveltyTracker :=
  let k := pyStrip kv.1
  let v := pyStrip kv.2
  let t := { t with key_frequency := k :: t.key_frequency,
                    value_frequency := v :: t.value_frequency }
  if t.isBaselinePeriod then
    let t := { t with
      unique_keys := if k ∈ t.unique_keys then t.unique_keys else k :: t.unique_keys,
      unique_values := if v ∈ t.unique_values then t.unique_values else v :: t.unique_values,
      response_lengths := t.response_lengths ++ [pairsLen],
      responses_processed := t.responses_processed + 1 }
    if baseline_period ≤ t.responses_processed then .error nameErrorMsg
    else .ok t
  else .ok t

/-- The `for k, v in pairs` loop of `add_response` (lines 63–84), element by
element: each iteration first unpacks one element — raising `ValueError`
when it does not have exactly two components — and then runs `processPair`;
any exception aborts the remaining iterations. -/
def processPairsRaw (pairsLen : Nat) :
    NoveltyTracker → List (List String) → Except String NoveltyTracker
  | t, [] => .ok t
  | t, [k, v] :: rest =>
    match processPair pairsLen t (k, v) with
    | .error e => .error e
    | .ok t' => processPairsRaw pairsLen t' rest
  | _, _ => .error "ValueError: not enough / too many values to unpack"

/-- Body of the `for agent_responses in response_dict.values()` loop of
`add_response` (lines 55–84). -/
def processValue (t : NoveltyTracker) : AgentVal → Except String NoveltyTracker
  | none => .ok t
  | some txt => processPairsRaw (rawPairs txt).length t (rawPairs txt)

/-- The `for agent_responses in response_dict.values()` loop of
`add_response`, value by value; an exception aborts the remaining iterations. -/
def processValues (t : NoveltyTracker) : List AgentVal → Except String NoveltyTracker
  | [] => .ok t
  | v :: vs =>
    match processValue t v with
    | .error e => .error e
    | .ok t' => processValues t' vs

/-- `NoveltyTracker.add_response` (lines 52–86), with `attention_matrix = None`
as at every call site.  A `ValueError` from tuple unpacking aborts the call;
on success the record is appended to the bounded (`deque(maxlen=...)`)
history. -/
def add_response (t : NoveltyTracker) (response_dict : RespDict) :
    Except String NoveltyTracker :=
  (processValues t response_dict).map (fun t =>
    let h := t.response_history ++ [response_dict]
    { t with response_history :=
        if h.length ≤ history_size then h else h.drop (h.length - history_size) })

/-- `np.mean` over a list of rationals. -/
def listMean (l : List ℚ) : ℚ := l.sum / l.length

/-- `NoveltyTracker.get_novelty_score` (lines 121–144). -/
def get_novelty_score (t : NoveltyTracker) (response_text : String) :
    Except String ℚ :=
  let pairs := rawPairs response_text
  if pairs = [] then .ok 0
  else
    (unpackPairs pairs).map (fun ps =>
      let key_scores := ps.map (fun p => (1 : ℚ) / (t.key_frequency.count (pyStrip p.1) + 1))
      let value_scores := ps.map (fun p => (1 : ℚ) / (t.value_frequency.count (pyStrip p.2) + 1))
      (listMean key_scores + listMean value_scores) / 2)

/-- A whole process lifetime of the tracker: the calls
`novelty_tracker.add_response(final_response)` performed one after the other,
starting from the given tracker state. -/
def observeAll (t : NoveltyTracker) : List RespDict → Except String NoveltyTracker
  | [] => .ok t
  | d :: ds =>
    match add_response t d with
    | .error e => .error e
    | .ok t' => observeAll t' ds

theorem processPair_fields (n : Nat) (t : NoveltyTracker) (kv : String × String)
    (t' : NoveltyTracker) (h : processPair n t kv = .ok t') :
    t'.key_frequency = pyStrip kv.1 :: t.key_frequency ∧
      t'.value_frequency = pyStrip kv.2 :: t.value_frequency ∧
      t'.isBaselinePeriod = t.isBaselinePeriod ∧
      t'.responses_processed =
        (if t.isBaselinePeriod = true then t.responses_processed + 1
         else t.responses_processed) := by
  unfold processPair at h
  cases hl : t.isBaselinePeriod
  · simp only [hl, Bool.false_eq_true, if_false, Except.ok.injEq] at h
    rw [← h]
    simp [hl]
  · simp only [hl, if_true] at h
    split at h
    · cases h
    · simp only [Except.ok.injEq] at h
      rw [← h]
      simp [hl]

theorem processPair_ok_iff (n : Nat) (t : NoveltyTracker) (kv : String × String) :
    (∃ t', processPair n t kv = .ok t') ↔
      (t.isBaselinePeriod = true → t.responses_processed + 1 < baseline_period) := by
  unfold processPair
  cases hl : t.isBaselinePeriod
  · simp [hl]
  · by_cases hc : baseline_period ≤ t.responses_processed + 1 <;> simp [hl, hc] <;> omega

theorem processPair_err_iff (n : Nat) (t : NoveltyTracker) (kv : String × String)
    (hl : t.isBaselinePeriod = true)
    (hc : baseline_period ≤ t.responses_processed + 1) :
    processPair n t kv = .error nameErrorMsg := by
  unfold processPair
  simp [hl, hc]

/-- The reachable-state invariant of the tracker: since the snapshot attempt
always raises before the latch flip, every state a completed call can return
still has `is_baseline_period = True` and a pair counter strictly below
`baseline_period`. -/
def BaselineInv (t : NoveltyTracker) : Prop :=
  t.isBaselinePeriod = true ∧ t.responses_processed < baseline_period

theorem baselineInv_init : BaselineInv .init := ⟨rfl, by decide⟩

theorem baselineInv_processPair (n : Nat) (t t' : NoveltyTracker)
    (kv : String × String) (h : BaselineInv t)
    (hp : processPair n t kv = .ok t') : BaselineInv t' := by
  obtain ⟨-, -, f3, f4⟩ := processPair_fields n t kv t' hp
  have hc := (processPair_ok_iff n t kv).mp ⟨t', hp⟩ h.1
  refine ⟨by rw [f3, h.1], ?_⟩
  rw [f4, if_pos h.1]
  omega

theorem baselineInv_processPairsRaw (n : Nat) (ps : List (List String)) :
    ∀ t t' : NoveltyTracker, BaselineInv t →
      processPairsRaw n t ps = .ok t' → BaselineInv t' := by
  induction ps with
  | nil => intro t t' h hp; cases hp; exact h
  | cons l rest ih =>
    intro t t' h hp
    match l with
    | [] => simp [processPairsRaw] at hp
    | [a] => simp [processPairsRaw] at hp
    | [a, b] =>
      rw [show processPairsRaw n t ([a, b] :: rest) =
            (match processPair n t (a, b) with
              | .error e => .error e
              | .ok t1 => processPairsRaw n t1 rest) from rfl] at hp
      cases hq : processPair n t (a, b) with
      | error e => rw [hq] at hp; cases hp
      | ok t1 =>
        rw [hq] at hp
        exact ih t1 t' (baselineInv_processPair n t t1 (a, b) h hq) hp
    | a :: b :: c :: tl => simp [processPairsRaw] at hp

theorem baselineInv_processValue (t t' : NoveltyTracker) (v : AgentVal)
    (h : BaselineInv t) (hv : processValue t v = .ok t') : BaselineInv t' := by
  cases v with
  | none => cases hv; exact h
  | some txt => exact baselineInv_processPairsRaw _ _ t t' h hv

theorem baselineInv_processValues (vs : List AgentVal) :
    ∀ t t' : NoveltyTracker, BaselineInv t →
      processValues t vs = .ok t' → BaselineInv t' := by
  induction vs with
  | nil => intro t t' h hv; cases hv; exact h
  | cons v vs ih =>
    intro t t' h hv
    unfold processValues at hv
    cases hpv : processValue t v with
    | error e => rw [hpv] at hv; cases hv
    | ok t1 =>
      rw [hpv] at hv
      exact ih t1 t' (baselineInv_processValue t t1 v h hpv) hv

theorem baselineInv_add_response (t t' : NoveltyTracker) (d : RespDict)
    (h : BaselineInv t) (hd : add_response t d = .ok t') : BaselineInv t' := by
  unfold add_response at hd
  cases hf : processValues t d with
  | error e => rw [hf] at hd; simp [Except.map] at hd
  | ok t1 =>
    rw [hf] at hd
    simp only [Except.map, Except.ok.injEq] at hd
    have h1 := baselineInv_processValues d t t1 h hf
    rw [← hd]
    unfold BaselineInv at h1 ⊢
    simpa using h1

theorem baselineInv_observeAll (ds : List RespDict) :
    ∀ t t' : NoveltyTracker, BaselineInv t →
      observeAll t ds = .ok t' → BaselineInv t' := by
  induction ds with
  | nil => intro t t' h hd; cases hd; exact h
  | cons d ds ih =>
    intro t t' h hd
    unfold observeAll at hd
    cases ha : add_response t d with
    | error e => rw [ha] at hd; cases hd
    | ok t1 =>
      rw [ha] at hd
      exact ih t1 t' (baselineInv_add_response t t1 d h ha) hd

set_option maxRecDepth 40000 in
/-- C1: the code is wrong where the claim states the intended behaviour.
`_save_baseline_metrics` reads the undefined module global `DATASET_FILE`
and so raises `NameError` on every call: feeding the tracker
`baseline_period` parsed pairs makes the observe call raise instead of
persisting the snapshot once, and no successful observe trace ever clears
`is_baseline_period` or brings `responses_processed` up to
`baseline_period` — the snapshot is never written.  (Also,
`responses_processed` counts parsed key/value pairs, not responses, against
both the claim and the code's own `baseline_period` comment.) -/
theorem C1_baseline_crash :
    add_response .init [some (pyJoin "\n" (List.replicate 100 "a: b"))] =
        .error nameErrorMsg ∧
      ∀ ds t', observeAll .init ds = .ok t' →
        t'.isBaselinePeriod = true ∧ t'.responses_processed < baseline_period := by
  constructor
  · decide
  · intro ds t' h
    exact baselineInv_observeAll ds .init t' baselineInv_init h

set_option maxRecDepth 10000 in
/-- Concrete instantiation of the invariant half of `C1_baseline_crash`. -/
theorem C1_baseline_crash_witness :
    ∃ t' : NoveltyTracker,
      observeAll .init [[some "k: v"]] = .ok t' ∧
        t'.isBaselinePeriod = true ∧
        t'.responses_processed < baseline_period := by
  refine ⟨{ response_history := [[some "k: v"]], key_frequency := ["k"],
            value_frequency := ["v"], unique_keys := ["k"], unique_values := ["v"],
            response_lengths := [1], responses_processed := 1,
            isBaselinePeriod := true }, ?h, ?_⟩
  case h => decide
  case _ => exact C1_baseline_crash.2 [[some "k: v"]] _ (by decide)

/-- A dict value the `for k, v in pairs` unpacking accepts: every
colon-containing line of its response text splits into exactly two parts. -/
def wfVal : AgentVal → Prop
  | none => True
  | some txt => ∀ l ∈ rawPairs txt, l.length = 2

theorem unpackPairs_ok_iff (ps : List (List String)) :
    (∃ qs, unpackPairs ps = .ok qs) ↔ ∀ l ∈ ps, l.length = 2 := by
  induction ps with
  | nil => simp [unpackPairs]
  | cons l rest ih =>
    match l with
    | [] => simp [unpackPairs]
    | [a] => simp [unpackPairs]
    | [a, b] =>
      rw [show unpackPairs ([a, b] :: rest) =
            (unpackPairs rest).map (fun qs => (a, b) :: qs) from rfl]
      constructor
      · rintro ⟨qs, hq⟩ l hl
        rcases List.mem_cons.mp hl with rfl | hl
        · rfl
        · refine (ih.mp ?_) l hl
          cases hu : unpackPairs rest with
          | error e => rw [hu] at hq; simp [Except.map] at hq
          | ok qs' => exact ⟨qs', rfl⟩
      · intro h
        obtain ⟨qs, hq⟩ := ih.mpr (fun l hl => h l (List.mem_cons_of_mem _ hl))
        exact ⟨(a, b) :: qs, by rw [hq]; rfl⟩
    | a :: b :: c :: tl => simp [unpackPairs]

theorem unpackPairs_length (ps : List (List String)) :
    ∀ qs, unpackPairs ps = .ok qs → qs.length = ps.length := by
  induction ps with
  | nil => intro qs h; cases h; rfl
  | cons l rest ih =>
    intro qs h
    match l with
    | [] => cases h
    | [a] => cases h
    | [a, b] =>
      cases hu : unpackPairs rest with
      | error e => rw [show unpackPairs ([a, b] :: rest) = (unpackPairs rest).map (fun ps => (a, b) :: ps) from rfl, hu] at h; cases h
      | ok qs' =>
        rw [show unpackPairs ([a, b] :: rest) = (unpackPairs rest).map (fun ps => (a, b) :: ps) from rfl, hu] at h
        cases h
        simp [ih qs' hu]
    | a :: b :: c :: tl => cases h

/-- `len(pairs)` for one dict value: how many key/value pairs this value
feeds through the pair loop (`0` for skipped values). -/
def valPairs : AgentVal → Nat
  | none => 0
  | some txt => (rawPairs txt).length

/-- The parsed pairs one whole `add_response` call feeds through the loop. -/
def totalPairs (d : RespDict) : Nat := (d.map valPairs).sum

theorem processPairsRaw_ok_iff (n : Nat) (ps : List (List String)) :
    ∀ t : NoveltyTracker,
      (∃ t', processPairsRaw n t ps = .ok t') ↔
        ((∀ l ∈ ps, l.length = 2) ∧
          (t.isBaselinePeriod = true →
            ps.length = 0 ∨ t.responses_processed + ps.length < baseline_period)) := by
  induction ps with
  | nil => intro t; simp [processPairsRaw]
  | cons l rest ih =>
    intro t
    match l with
    | [] => simp [processPairsRaw]
    | [a] => simp [processPairsRaw]
    | [a, b] =>
      rw [show processPairsRaw n t ([a, b] :: rest) =
            (match processPair n t (a, b) with
              | .error e => .error e
              | .ok t1 => processPairsRaw n t1 rest) from rfl]
      cases hq : processPair n t (a, b) with
      | error e =>
        have hne : ¬(t.isBaselinePeriod = true → t.responses_processed + 1 < baseline_period) := by
          intro hcond
          obtain ⟨t'', ht''⟩ := (processPair_ok_iff n t (a, b)).mpr hcond
          rw [ht''] at hq
          cases hq
        push_neg at hne
        constructor
        · rintro ⟨t', ht'⟩
          cases ht'
        · rintro ⟨-, hcnt⟩
          rcases hcnt hne.1 with h0 | hlt
          · simp at h0
          · simp only [List.length_cons] at hlt
            omega
      | ok t1 =>
        obtain ⟨-, -, f3, f4⟩ := processPair_fields n t (a, b) t1 hq
        have hc := (processPair_ok_iff n t (a, b)).mp ⟨t1, hq⟩
        have hlhs : (∃ t', (match Except.ok t1 with
            | Except.error e => Except.error e
            | Except.ok t2 => processPairsRaw n t2 rest) = .ok t') ↔
            (∃ t', processPairsRaw n t1 rest = .ok t') := Iff.rfl
        rw [hlhs, ih t1]
        constructor
        · rintro ⟨hwf, hcnt⟩
          refine ⟨?_, ?_⟩
          · intro x hx
            rcases List.mem_cons.mp hx with rfl | hx
            · rfl
            · exact hwf x hx
          · intro hlat
            have h1 := hc hlat
            have h2 := hcnt (by rw [f3]; exact hlat)
            rw [f4, if_pos hlat] at h2
            simp only [List.length_cons]
            omega
        · rintro ⟨hwf, hcnt⟩
          refine ⟨fun x hx => hwf x (List.mem_cons_of_mem _ hx), ?_⟩
          intro hlat1
          have hlat : t.isBaselinePeriod = true := by rw [← f3]; exact hlat1
          have h1 := hc hlat
          have h2 := hcnt hlat
          rw [f4, if_pos hlat]
          simp only [List.length_cons] at h2
          omega
    | a :: b :: c :: tl => simp [processPairsRaw]

theorem processPairsRaw_state (n : Nat) (ps : List (List String)) :
    ∀ t t' : NoveltyTracker, processPairsRaw n t ps = .ok t' →
      t'.isBaselinePeriod = t.isBaselinePeriod ∧
      t'.responses_processed =
        (if t.isBaselinePeriod = true then t.responses_processed + ps.length
         else t.responses_processed) := by
  induction ps with
  | nil =>
    intro t t' h
    cases h
    cases hl : t.isBaselinePeriod <;> simp [hl]
  | cons l rest ih =>
    intro t t' h
    match l with
    | [] => simp [processPairsRaw] at h
    | [a] => simp [processPairsRaw] at h
    | [a, b] =>
      rw [show processPairsRaw n t ([a, b] :: rest) =
            (match processPair n t (a, b) with
              | .error e => .error e
              | .ok t1 => processPairsRaw n t1 rest) from rfl] at h
      cases hq : processPair n t (a, b) with
      | error e => rw [hq] at h; cases h
      | ok t1 =>
        rw [hq] at h
        obtain ⟨-, -, f3, f4⟩ := processPair_fields n t (a, b) t1 hq
        obtain ⟨g1, g2⟩ := ih t1 t' h
        refine ⟨by rw [g1, f3], ?_⟩
        rw [g2, f3, f4]
        cases hl : t.isBaselinePeriod <;> simp [hl] <;> omega
    | a :: b :: c :: tl => simp [processPairsRaw] at h

theorem processValue_ok_iff (t : NoveltyTracker) (v : AgentVal) :
    (∃ t', processValue t v = .ok t') ↔
      (wfVal v ∧ (t.isBaselinePeriod = true →
        valPairs v = 0 ∨
          t.responses_processed + valPairs v < baseline_period)) := by
  cases v with
  | none => simp [processValue, wfVal, valPairs]
  | some txt => exact processPairsRaw_ok_iff (rawPairs txt).length (rawPairs txt) t

theorem processValue_state (t t' : NoveltyTracker) (v : AgentVal)
    (h : processValue t v = .ok t') :
    t'.isBaselinePeriod = t.isBaselinePeriod ∧
      t'.responses_processed =
        (if t.isBaselinePeriod = true then t.responses_processed + valPairs v
         else t.responses_processed) := by
  cases v with
  | none =>
    cases h
    cases hl : t.isBaselinePeriod <;> simp [hl, valPairs]
  | some txt => exact processPairsRaw_state (rawPairs txt).length (rawPairs txt) t t' h

theorem processValues_ok_iff (vs : List AgentVal) :
    ∀ t : NoveltyTracker,
      (∃ t', processValues t vs = .ok t') ↔
        ((∀ v ∈ vs, wfVal v) ∧
          (t.isBaselinePeriod = true →
            totalPairs vs = 0 ∨
              t.responses_processed + totalPairs vs < baseline_period)) := by
  induction vs with
  | nil => intro t; simp [processValues, totalPairs]
  | cons v vs ih =>
    intro t
    unfold processValues
    constructor
    · rintro ⟨t', h⟩
      cases hpv : processValue t v with
      | error e => rw [hpv] at h; cases h
      | ok t1 =>
        rw [hpv] at h
        obtain ⟨s1, s2⟩ := processValue_state t t1 v hpv
        have hv1 := (processValue_ok_iff t v).mp ⟨t1, hpv⟩
        have hrest := (ih t1).mp ⟨t', h⟩
        refine ⟨?_, ?_⟩
        · intro x hx
          rcases List.mem_cons.mp hx with rfl | hx
          · exact hv1.1
          · exact hrest.1 x hx
        · intro hlat
          have ha := hv1.2 hlat
          have hb := hrest.2 (by rw [s1]; exact hlat)
          rw [s2, if_pos hlat] at hb
          simp only [totalPairs, List.map_cons, List.sum_cons] at hb ⊢
          omega
    · rintro ⟨hwf, hcnt⟩
      obtain ⟨t1, hpv⟩ : ∃ t1, processValue t v = .ok t1 := by
        rw [processValue_ok_iff]
        refine ⟨hwf v (List.mem_cons_self v vs), ?_⟩
        intro hlat
        have hh := hcnt hlat
        simp only [totalPairs, List.map_cons, List.sum_cons] at hh
        omega
      obtain ⟨s1, s2⟩ := processValue_state t t1 v hpv
      obtain ⟨t', h'⟩ : ∃ t', processValues t1 vs = .ok t' := by
        rw [ih t1]
        refine ⟨fun x hx => hwf x (List.mem_cons_of_mem _ hx), ?_⟩
        intro hlat1
        have hlat : t.isBaselinePeriod = true := by rw [← s1]; exact hlat1
        have hh := hcnt hlat
        rw [s2, if_pos hlat]
        simp only [totalPairs, List.map_cons, List.sum_cons] at hh ⊢
        omega
      exact ⟨t', by rw [hpv]; exact h'⟩

theorem add_response_ok_iff (t : NoveltyTracker) (d : RespDict) :
    (∃ t', add_response t d = .ok t') ↔
      ((∀ v ∈ d, wfVal v) ∧
        (t.isBaselinePeriod = true →
          totalPairs d = 0 ∨
            t.responses_processed + totalPairs d < baseline_period)) := by
  rw [← processValues_ok_iff d t]
  unfold add_response
  cases hf : processValues t d <;> simp [hf, Except.map]

/-- C3, as stated, is false: on a line containing more than one colon
(`"time: 12:30"`), both the score and the observe operation raise a
`ValueError` from tuple unpacking instead of silently skipping the line. -/
theorem C3_counterexample :
    get_novelty_score .init "time: 12:30" =
        .error "ValueError: not enough / too many values to unpack" ∧
      add_response .init [some "time: 12:30"] =
        .error "ValueError: not enough / too many values to unpack" := by
  constructor <;> decide

/-- C3 (amended): lines without a colon are silently skipped.
`get_novelty_score` succeeds exactly when every colon-containing line splits
into exactly one key and one value, raising `ValueError` otherwise.
`add_response` raises `ValueError` on such a malformed line too, and — even
on fully well-formed input — raises `NameError` from
`_save_baseline_metrics` when its parsed pairs drive `responses_processed`
up to `baseline_period`: it succeeds exactly when every colon-containing
line of every response splits into two parts and, while the baseline latch
is set, the call leaves the pair counter below `baseline_period`. -/
theorem C3_malformed_lines (t : NoveltyTracker) (txt : String) (d : RespDict) :
    ((∃ q, get_novelty_score t txt = .ok q) ↔ ∀ l ∈ rawPairs txt, l.length = 2) ∧
      ((∃ t', add_response t d = .ok t') ↔
        ((∀ v ∈ d, wfVal v) ∧
          (t.isBaselinePeriod = true →
            totalPairs d = 0 ∨
              t.responses_processed + totalPairs d < baseline_period))) := by
  refine ⟨?_, add_response_ok_iff t d⟩
  unfold get_novelty_score
  by_cases hemp : rawPairs txt = []
  · simp [hemp]
  · rw [← unpackPairs_ok_iff]
    cases hu : unpackPairs (rawPairs txt) <;> simp [hemp, hu, Except.map]

/-- Concrete instantiation of `C3_malformed_lines`. -/
theorem C3_malformed_lines_witness :
    ∃ q, get_novelty_score .init "a: b" = .ok q :=
  (C3_malformed_lines .init "a: b" []).1.mpr (by decide)

theorem listMean_bounds (l : List ℚ) (hne : l ≠ [])
    (h : ∀ x ∈ l, 0 < x ∧ x ≤ 1) : 0 < listMean l ∧ listMean l ≤ 1 := by
  have hlen0 : 0 < l.length := List.length_pos.mpr hne
  have hlen : (0 : ℚ) < l.length := by exact_mod_cast hlen0
  have hsum : 0 < l.sum := List.sum_pos l (fun x hx => (h x hx).1) hne
  have hle : l.sum ≤ (l.length : ℚ) := by
    have h2 := List.sum_le_card_nsmul l 1 (fun x hx => (h x hx).2)
    simpa [nsmul_eq_mul] using h2
  refine ⟨?_, ?_⟩
  · rw [listMean]; exact div_pos hsum hlen
  · rw [listMean, div_le_one hlen]; exact hle

/-- The per-pair novelty contributions `1.0 / (freq + 1)` all lie in `(0, 1]`. -/
theorem contribution_mem_bounds (freqList : List String) (strip : String)
    (x : ℚ) (hx : x = (1 : ℚ) / (freqList.count strip + 1)) : 0 < x ∧ x ≤ 1 := by
  subst hx
  constructor
  · apply div_pos one_pos
    positivity
  · rw [div_le_one (by positivity)]
    exact le_add_of_nonneg_left (Nat.cast_nonneg _)

/-- C4 (amended): on every candidate text whose colon-containing lines each
split into exactly one key and one value, `get_novelty_score` returns `0.0`
when no such line exists and otherwise the mean of the key-novelty mean and
the value-novelty mean over the parsed pairs; the returned value lies in
`[0, 1]`. -/
theorem C4_score_bounds (t : NoveltyTracker) (txt : String)
    (h : ∀ l ∈ rawPairs txt, l.length = 2) :
    ∃ r : ℚ, get_novelty_score t txt = .ok r ∧ 0 ≤ r ∧ r ≤ 1 ∧
      (rawPairs txt = [] → r = 0) ∧
      ∀ ps, unpackPairs (rawPairs txt) = .ok ps → rawPairs txt ≠ [] →
        r = (listMean (ps.map (fun p => (1 : ℚ) / (t.key_frequency.count (pyStrip p.1) + 1))) +
            listMean (ps.map (fun p => (1 : ℚ) / (t.value_frequency.count (pyStrip p.2) + 1)))) / 2 := by
  by_cases hemp : rawPairs txt = []
  · refine ⟨0, ?_, le_refl 0, by norm_num, fun _ => rfl, fun ps hps hne => absurd hemp hne⟩
    unfold get_novelty_score
    simp [hemp]
  · obtain ⟨qs, hqs⟩ := (unpackPairs_ok_iff _).mpr h
    have hqne : qs ≠ [] := by
      intro hnil
      have hlen := unpackPairs_length _ qs hqs
      rw [hnil] at hlen
      exact hemp (List.length_eq_zero.mp hlen.symm)
    have hb1 := listMean_bounds
      (qs.map (fun p => (1 : ℚ) / (t.key_frequency.count (pyStrip p.1) + 1)))
      (by simpa using hqne)
      (fun x hx => by
        obtain ⟨p, _, hpx⟩ := List.mem_map.mp hx
        exact contribution_mem_bounds _ _ x hpx.symm)
    have hb2 := listMean_bounds
      (qs.map (fun p => (1 : ℚ) / (t.value_frequency.count (pyStrip p.2) + 1)))
      (by simpa using hqne)
      (fun x hx => by
        obtain ⟨p, _, hpx⟩ := List.mem_map.mp hx
        exact contribution_mem_bounds _ _ x hpx.symm)
    refine ⟨(listMean (qs.map (fun p => (1 : ℚ) / (t.key_frequency.count (pyStrip p.1) + 1))) +
        listMean (qs.map (fun p => (1 : ℚ) / (t.value_frequency.count (pyStrip p.2) + 1)))) / 2,
      ?_, by linarith [hb1.1, hb2.1], by linarith [hb1.2, hb2.2],
      fun he => absurd he hemp, ?_⟩
    · unfold get_novelty_score
      simp [hemp, hqs, Except.map]
    · intro ps hps _
      rw [hqs] at hps
      cases hps
      rfl

/-- Concrete instantiation of `C4_score_bounds`. -/
theorem C4_score_bounds_witness :
    ∃ r : ℚ, get_novelty_score .init "a: b" = .ok r ∧ 0 ≤ r ∧ r ≤ 1 ∧
      (rawPairs "a: b" = [] → r = 0) ∧
      ∀ ps, unpackPairs (rawPairs "a: b") = .ok ps → rawPairs "a: b" ≠ [] →
        r = (listMean (ps.map (fun p =>
              (1 : ℚ) / (NoveltyTracker.init.key_frequency.count (pyStrip p.1) + 1))) +
            listMean (ps.map (fun p =>
              (1 : ℚ) / (NoveltyTracker.init.value_frequency.count (pyStrip p.2) + 1)))) / 2 :=
  C4_score_bounds .init "a: b" (by decide)

/-- C4, as stated over *every* candidate text, is false: on the text
`"x: 1:2"` the score raises a `ValueError` instead of returning a value. -/
theorem C4_counterexample :
    get_novelty_score .init "x: 1:2" =
      .error "ValueError: not enough / too many values to unpack" := by decide

theorem add_response_eq (t : NoveltyTracker) (d : RespDict) (t1 : NoveltyTracker)
    (hf : processValues t d = .ok t1) :
    ∃ t', add_response t d = .ok t' ∧ t'.key_frequency = t1.key_frequency ∧
      t'.value_frequency = t1.value_frequency ∧
      t'.isBaselinePeriod = t1.isBaselinePeriod ∧
      t'.responses_processed = t1.responses_processed := by
  unfold add_response
  rw [hf]
  exact ⟨_, rfl, rfl, rfl, rfl, rfl⟩

theorem add_response_single (t : NoveltyTracker) (txt a b : String)
    (hp : rawPairs txt = [[a, b]]) (hl : t.isBaselinePeriod = true)
    (hr : t.responses_processed + 1 < baseline_period) :
    ∃ t', add_response t [some txt] = .ok t' ∧
      t'.isBaselinePeriod = true ∧
      t'.responses_processed = t.responses_processed + 1 ∧
      t'.key_frequency = pyStrip a :: t.key_frequency ∧
      t'.value_frequency = pyStrip b :: t.value_frequency := by
  obtain ⟨t1, hq⟩ := (processPair_ok_iff 1 t (a, b)).mpr (fun _ => hr)
  obtain ⟨f1, f2, f3, f4⟩ := processPair_fields 1 t (a, b) t1 hq
  have hpv1 : processValue t (some txt) = .ok t1 := by
    show processPairsRaw (rawPairs txt).length t (rawPairs txt) = .ok t1
    rw [hp]
    show (match processPair 1 t (a, b) with
      | Except.error e => Except.error e
      | Except.ok t2 => processPairsRaw 1 t2 []) = Except.ok t1
    rw [hq]
    rfl
  have hpv : processValues t [some txt] = .ok t1 := by
    unfold processValues
    rw [hpv1]
    rfl
  obtain ⟨t', h1, h2, h3, h4, h5⟩ := add_response_eq t [some txt] t1 hpv
  refine ⟨t', h1, ?_, ?_, ?_, ?_⟩
  · rw [h4, f3, hl]
  · rw [h5, f4, if_pos hl]
  · rw [h2, f1]
  · rw [h3, f2]

theorem observeAll_replicate (k : Nat) (txt a b : String)
    (hp : rawPairs txt = [[a, b]]) :
    ∀ t : NoveltyTracker, t.isBaselinePeriod = true →
      t.responses_processed + k < baseline_period →
      ∃ t', observeAll t (List.replicate k [some txt]) = .ok t' ∧
        t'.isBaselinePeriod = true ∧
        t'.responses_processed = t.responses_processed + k ∧
        t'.key_frequency.count (pyStrip a) = t.key_frequency.count (pyStrip a) + k ∧
        t'.value_frequency.count (pyStrip b) = t.value_frequency.count (pyStrip b) + k := by
  induction k with
  | zero => intro t hl _; exact ⟨t, rfl, hl, rfl, rfl, rfl⟩
  | succ k ih =>
    intro t hl hr
    obtain ⟨t1, h1, l1, r1, hk1, hv1⟩ := add_response_single t txt a b hp hl (by omega)
    obtain ⟨t', h', l', r', hk', hv'⟩ := ih t1 l1 (by rw [r1]; omega)
    refine ⟨t', ?_, l', ?_, ?_, ?_⟩
    · rw [List.replicate_succ]
      unfold observeAll
      rw [h1]
      exact h'
    · rw [r', r1]
      omega
    · rw [hk', hk1, List.count_cons_self]
      omega
    · rw [hv', hv1, List.count_cons_self]
      omega

/-- C5: the novelty contribution of a fixed key/value pair strictly
decreases with its observed frequency: on a tracker far enough from the
baseline-period boundary (whose snapshot attempt would raise `NameError`),
observing a response containing the pair five times and then scoring a
single-pair candidate with the same pair yields a strictly lower score than
scoring it when the pair had zero prior occurrences. -/
theorem C5_novelty_decay (t : NoveltyTracker) (txt a b : String)
    (hp : rawPairs txt = [[a, b]])
    (hl : t.isBaselinePeriod = true)
    (hb : t.responses_processed + 5 < baseline_period)
    (hk : t.key_frequency.count (pyStrip a) = 0)
    (hv : t.value_frequency.count (pyStrip b) = 0) :
    ∃ t5 : NoveltyTracker, observeAll t (List.replicate 5 [some txt]) = .ok t5 ∧
      ∃ r0 r5 : ℚ, get_novelty_score t txt = .ok r0 ∧
        get_novelty_score t5 txt = .ok r5 ∧ r5 < r0 := by
  obtain ⟨t5, h5, -, -, hk5, hv5⟩ := observeAll_replicate 5 txt a b hp t hl hb
  rw [hk] at hk5
  rw [hv] at hv5
  have hu : unpackPairs (rawPairs txt) = .ok [(a, b)] := by rw [hp]; rfl
  refine ⟨t5, h5, 1, 1 / 6, ?_, ?_, by norm_num⟩
  · unfold get_novelty_score
    rw [hp] at hu ⊢
    simp [hu, Except.map, listMean, hk, hv]
  · unfold get_novelty_score
    rw [hp] at hu ⊢
    simp [hu, Except.map, listMean, hk5, hv5]
    norm_num

/-- Concrete instantiation of `C5_novelty_decay` at the pair `topic: space`. -/
theorem C5_novelty_decay_witness :
    ∃ t5 : NoveltyTracker,
      observeAll .init (List.replicate 5 [some "topic: space"]) = .ok t5 ∧
      ∃ r0 r5 : ℚ, get_novelty_score .init "topic: space" = .ok r0 ∧
        get_novelty_score t5 "topic: space" = .ok r5 ∧ r5 < r0 :=
  C5_novelty_decay .init "topic: space" "topic" " space" (by decide) (by decide)
    (by decide) (by decide) (by decide)

/-! ## `src/llama-stack-clipboard.py` -/

/-- `PERFORMANCE_CONFIG["min_content_length"]`. -/
def min_content_length : Nat := 10

/-- A content item `{"type": ..., "content": ..., "hash": ...}` as built by
`process_clipboard_content`; for images, `content` is the saved file path. -/
structure Content where
  type : String
  content : String
  hash : String
  deriving Repr, DecidableEq

/-- Remainder of `s` after removing the prefix `pat`, when `pat` starts `s`. -/
def stripPrefixQ : List Char → List Char → Option (List Char)
  | [], s => some s
  | _, [] => none
  | p :: ps, c :: cs => if c = p then stripPrefixQ ps cs else none

/-- Python `s.count(sub)` for non-empty `sub`: non-overlapping occurrences,
scanning left to right; `fuel` (instantiated with the text length, an upper
bound on the number of scan steps) makes the recursion structural. -/
def countSubAux (pat : List Char) : Nat → List Char → Nat
  | 0, _ => 0
  | _ + 1, [] => 0
  | fuel + 1, c :: cs =>
    match stripPrefixQ pat (c :: cs) with
    | some rest => 1 + countSubAux pat fuel rest
    | none => countSubAux pat fuel cs

/-- Python `s.count(sub)` (for Python, an empty pattern occurs `len + 1` times). -/
def pyCount (s sub : String) : Nat :=
  if sub.data = [] then s.data.length + 1 else countSubAux sub.data s.data.length s.data

/-- The `code_indicators` table of `analyze_content_type` (lines 213–221). -/
def code_indicators : List (String × Nat) :=
  [("import ", 5), ("def ", 3), ("class ", 3), ("return ", 3), ("    ", 2),
   (");", 2), ("\x7d;", 2)]

/-- The `structured_indicators` table of `analyze_content_type` (lines 227–234). -/
def structured_indicators : List (String × Nat) :=
  [("\x7b", 1), ("\x7d", 1), ("[", 1), ("]", 1), ("\"key\"", 2), ("\"value\"", 2)]

/-- `sum(text.count(indicator) * weight for indicator, weight in table.items())`. -/
def weightedScore (indicators : List (String × Nat)) (text : String) : Nat :=
  (indicators.map (fun iw => pyCount text iw.1 * iw.2)).sum

/-- `analyze_content_type` (lines 205–244). -/
def analyze_content_type (content : Content) : String :=
  if content.type ≠ "text" then content.type
  else
    let text := content.content
    let code_score := weightedScore code_indicators text
    let structured_score := weightedScore structured_indicators text
    if 10 < code_score then "code"
    else if 10 < structured_score then "structured_data"
    else "natural_text"

/-- The argument of `get_content_hash` in `process_clipboard_content`:
`text_content if text_content else latest_screenshot` — nonempty clipboard
text, or else the `Path`-or-`None` screenshot value. -/
inductive HashArg where
  | text (s : String)
  | shot (p : Option String)
  deriving Repr, DecidableEq

/-- `process_clipboard_content` (lines 250–271), with the environment reads
made explicit: `text_content` is `pyperclip.paste()` (`""` when the clipboard
is empty), `latest_screenshot` the newest screenshot path if any, `hash` the
`get_content_hash` digest (md5 of `str(...)`), `save` the `save_image` copy
returning the asset-store path, and `last` the global `last_content_hash`.
Returns the produced item (if any) and the new `last_content_hash`. -/
def captureHashArg (text_content : String) (latest_screenshot : Option String) :
    HashArg :=
  if text_content ≠ "" then .text text_content else .shot latest_screenshot

/-- The condition of the early `return None` of `process_clipboard_content`
(lines 260–262): duplicate fingerprint, or text below the minimum length. -/
def gateSkip (hash : HashArg → String) (text_content : String)
    (latest_screenshot : Option String) (last : Option String) : Prop :=
  some (hash (captureHashArg text_content latest_screenshot)) = last ∨
    (text_content ≠ "" ∧ pyLen text_content < min_content_length)

instance (hash : HashArg → String) (t : String) (sc : Option String)
    (last : Option String) : Decidable (gateSkip hash t sc last) := by
  unfold gateSkip
  infer_instance

def process_clipboard_content (hash : HashArg → String) (save : String → String)
    (text_content : String) (latest_screenshot : Option String)
    (last : Option String) : Option Content × Option String :=
  let current_hash := hash (captureHashArg text_content latest_screenshot)
  if gateSkip hash text_content latest_screenshot last then
    (none, last)
  else
    if text_content ≠ "" then
      (some ⟨"text", text_content, current_hash⟩, some current_hash)
    else
      match latest_screenshot with
      | some p => (some ⟨"image", save p, current_hash⟩, some current_hash)
      | none => (none, some current_hash)

/-- `AI_CONFIG["provider"]`. -/
def ai_provider : String := "meta-reference"

/-- `AI_CONFIG["model_id"]`. -/
def ai_model_id : String := "meta-llama/Llama-3.2-1B-Instruct"

/-- `AI_CONFIG["environment"]`. -/
def ai_environment : String := "single-node"

/-- One agent's entry in the `final_response` mapping of `analyze_content`
(lines 321–328). -/
structure AgentResult where
  response : String
  ctx_content_type : String
  ctx_previous_thoughts : String
  ctx_role : String
  deriving Repr, DecidableEq

/-- `analysis_metadata` of `save_to_dataset` (lines 349–353). -/
structure AnalysisMetadata where
  agent_count : Nat
  content_type : String
  content_length : Nat
  deriving Repr, DecidableEq

/-- The dataset line written by `save_to_dataset` (lines 336–357);
`llama_stack_metadata` is flattened to its provider/model/environment fields
(the remaining fields are constant config dumps), `timestamp` is the external
clock value. -/
structure DatasetRecord where
  timestamp : String
  content : Content
  ai_response : List (String × AgentResult)
  provider : String
  model : String
  environment : String
  analysis_metadata : AnalysisMetadata
  deriving Repr, DecidableEq

/-- One persona of `AGENT_CONFIG` (lines 71–124): its display name, role
text, and prompt template, the latter split at its single
`\x7bprev_thoughts\x7d` placeholder (the `color` field only affects terminal
output and is not modelled). -/
structure Agent where
  name : String
  personality : String
  tplBefore : String
  tplAfter : String
  deriving Repr, DecidableEq

/-- `agent["prompt_template"].format(prev_thoughts=...)`: each template
contains exactly one placeholder and no other brace, so `str.format` splices
the argument between the surrounding literal text. -/
def renderTemplate (a : Agent) (prev : String) : String :=
  a.tplBefore ++ prev ++ a.tplAfter

/-- The `curator` persona (lines 72–91). -/
def curator : Agent :=
  { name := "Curator",
    personality := "A detail-oriented observer who detects content type and topic shifts",
    tplBefore := "Analyze content for type and topic changes. Pay special attention to:\n            - Programming code vs natural language\n            - Technical documentation vs conversational text\n            - Structured data vs prose\n            - Major subject matter shifts\n            \n            Rules:\n            - Each key and value should be 1-3 words maximum\n            - ALWAYS start with \x27content_type\x27 and \x27context_shift\x27\n            - If content type changes (e.g. code vs text), ALWAYS mark context_shift as true\n            - Format as \x27key: value\x27\n            \n            Previous context: ",
    tplAfter := "\n            \n            List the key-value pairs for this content:" }

/-- The `analyst` persona (lines 92–107). -/
def analyst : Agent :=
  { name := "Analyst",
    personality := "A technical analyzer who identifies structural patterns",
    tplBefore := "Analyze content structure and complexity while tracking shifts.\n            \n            Rules:\n            - Each key and value should be 1-3 words maximum\n            - ALWAYS start with \x27structure_type\x27 and \x27complexity_level\x27\n            - Note dramatic shifts in content structure\n            - Format as \x27key: value\x27\n            \n            Previous flow: ",
    tplAfter := "\n            \n            List the key-value pairs for this analysis:" }

/-- The `synthesizer` persona (lines 108–123). -/
def synthesizer : Agent :=
  { name := "Synthesizer",
    personality := "An integrator who identifies significant transitions",
    tplBefore := "Synthesize shifts in content type and structure.\n            \n            Rules:\n            - Each key and value should be 1-3 words maximum\n            - ALWAYS evaluate significance of change\n            - Format as \x27key: value\x27\n            - Add change metrics\n            \n            Previous synthesis: ",
    tplAfter := "\n            \n            List the key-value pairs for your synthesis:" }

/-- `AGENT_CONFIG`: the fixed persona roster in insertion order. -/
def AGENT_CONFIG : List (String × Agent) :=
  [("curator", curator), ("analyst", analyst), ("synthesizer", synthesizer)]

/-- `truncate_content` (lines 359–363). -/
def truncate_content (text : String) (max_chars : Nat := 512) : String :=
  if pyLen text ≤ max_chars then text
  else .mk (text.data.take max_chars) ++ "... [truncated]"

/-- `[line.strip() for line in thought.split('\n') if ':' in line]`:
the colon-line filter of `format_previous_thoughts` (line 373). -/
def colonLines (thought : String) : List String :=
  ((pySplit '\n' thought).filter (fun l => pyContains ':' l)).map pyStrip

/-- The `for i, thought in enumerate(thoughts)` loop of
`format_previous_thoughts` (lines 371–374): label each thought with the
persona id at the same index (`list(AGENT_CONFIG.keys())[i]`; at most three
thoughts ever accumulate, one per persona). -/
def formatEntries : Nat → List String → List String
  | _, [] => []
  | i, thought :: rest =>
    ((AGENT_CONFIG.map Prod.fst).getD i "" ++ ":\n" ++ pyJoin "\n" (colonLines thought)) ::
      formatEntries (i + 1) rest

/-- `format_previous_thoughts` (lines 365–376). -/
def format_previous_thoughts (thoughts : List String) : String :=
  if thoughts = [] then "no_previous: true"
  else pyJoin "\n" (formatEntries 0 thoughts)

/-- The prompt built for one agent in `analyze_content` (lines 303–309). -/
def buildPrompt (content_type : String) (content : Content)
    (thoughts : List String) (a : Agent) : String :=
  "Content type detected: " ++ content_type ++ "\n\n" ++
    renderTemplate a (format_previous_thoughts thoughts) ++
    "\n\nContent to analyze:\n" ++ truncate_content content.content

/-- One iteration of the `for agent_id, agent in AGENT_CONFIG.items()` loop
of `analyze_content` (lines 302–328); `oracle` models
`query_llama_stack(prompt).get('response', '')`.  An empty or
`Error:`-prefixed response skips the persona. -/
def analyzeStep (oracle : String → String) (content_type : String)
    (content : Content) (acc : List String × List (String × AgentResult))
    (ag : String × Agent) : List String × List (String × AgentResult) :=
  let prompt := buildPrompt content_type content acc.1 ag.2
  let response_text := pyStrip (oracle prompt)
  if response_text = "" ∨ pyStartsWith "Error:" response_text = true then acc
  else
    (acc.1 ++ [response_text],
     acc.2 ++ [(ag.1,
       { response := response_text,
         ctx_content_type := content_type,
         ctx_previous_thoughts := format_previous_thoughts acc.1,
         ctx_role := ag.2.personality })])

/-- `analyze_content` (lines 295–334): the accumulated `final_response`
mapping, in insertion order. -/
def analyze_content (oracle : String → String) (content : Content) :
    List (String × AgentResult) :=
  (AGENT_CONFIG.foldl (analyzeStep oracle (analyze_content_type content) content)
    ([], [])).2

/-- `analyze_content`, also returning the rendered prompt of every agent in
order (the same loop, with the per-iteration `prompt` values recorded). -/
def analyzeWithPrompts (oracle : String → String) (content : Content) :
    (List String × List (String × AgentResult)) × List String :=
  AGENT_CONFIG.foldl
    (fun acc ag =>
      ((analyzeStep oracle (analyze_content_type content) content acc.1 ag),
        acc.2 ++ [buildPrompt (analyze_content_type content) content acc.1.1 ag.2]))
    (([], []), [])

/-- The prompts rendered for the three personas, in persona order. -/
def agentPrompts (oracle : String → String) (content : Content) : List String :=
  (analyzeWithPrompts oracle content).2

/-- `save_to_dataset` (lines 336–357): the record appended to the dataset
file. -/
def save_to_dataset (timestamp : String) (content : Content)
    (ai_response : List (String × AgentResult)) : DatasetRecord :=
  { timestamp := timestamp,
    content := content,
    ai_response := ai_response,
    provider := ai_provider,
    model := ai_model_id,
    environment := ai_environment,
    analysis_metadata :=
      { agent_count := AGENT_CONFIG.length,
        content_type := content.type,
        content_length := pyLen content.content } }

/-- `AI_CONFIG["fallback"]["retry_attempts"]`. -/
def retry_attempts : Nat := 3

/-- `AI_CONFIG["fallback"]["retry_delay"]` (seconds). -/
def retry_delay : Nat := 5

/-- One chunk of the completion stream, as duck-typed by `query_llama_stack`
(lines 164–171): it has `event.delta`, or a non-empty `choices` list, or
neither (skipped). -/
inductive Chunk where
  | eventDelta (s : String)
  | choices (s : String)
  | other
  deriving Repr, DecidableEq

/-- The `new_text` extracted from a chunk, if any. -/
def extractChunk : Chunk → Option String
  | .eventDelta s => some s
  | .choices s => some s
  | .other => none

/-- The `for chunk in response` loop of `query_llama_stack` (lines 164–180):
concatenate deltas, suppressing exact duplicates via `seen_facts`, and stop
once the accumulated response exceeds 1000 characters. -/
def assembleChunks : List Chunk → String → List String → String
  | [], full, _ => full
  | c :: rest, full, seen =>
    match extractChunk c with
    | none => assembleChunks rest full seen
    | some new_text =>
      if new_text ∈ seen then
        if 1000 < pyLen full then full else assembleChunks rest full seen
      else
        if 1000 < pyLen (full ++ new_text) then full ++ new_text
        else assembleChunks rest (full ++ new_text) (new_text :: seen)

/-- What one `client.inference.chat_completion(...)` call does: raise a
transport error, or return a stream (`chunks` are the chunks consumed before
the stream ends or a stream error stops the inner loop). -/
inductive AttemptOutcome where
  | transportError (msg : String)
  | stream (chunks : List Chunk)

/-- The observable outcome of `query_llama_stack`: the returned dict's
`response` field, whether its metadata is the error sentinel, the number of
`chat_completion` calls performed, and the `time.sleep` delays taken. -/
structure QueryResult where
  response : String
  isError : Bool
  attempts : Nat
  delays : List Nat
  deriving Repr, DecidableEq

/-- The `for attempt in range(retry_attempts)` loop of `query_llama_stack`
(lines 143–203); `made`/`delays` record the calls and sleeps so far.  The
`[]` case is Python's implicit `return None` after loop exhaustion, which is
unreachable: the final attempt always returns. -/
def queryGo (oracle : Nat → AttemptOutcome) :
    List Nat → Nat → List Nat → QueryResult
  | [], made, delays => { response := "", isError := true, attempts := made, delays := delays }
  | attempt :: rest, made, delays =>
    match oracle attempt with
    | .stream chunks =>
      { response := pyStrip (assembleChunks chunks "" []),
        isError := false, attempts := made + 1, delays := delays }
    | .transportError _ =>
      if attempt < retry_attempts - 1 then
        queryGo oracle rest (made + 1) (delays ++ [retry_delay])
      else
        { response := "Error: Llama Stack server unavailable",
          isError := true, attempts := made + 1, delays := delays }

/-- `query_llama_stack` (lines 141–203), as a function of what each
`chat_completion` attempt does. -/
def query_llama_stack (oracle : Nat → AttemptOutcome) : QueryResult :=
  queryGo oracle (List.range retry_attempts) 0 []

/-- The longest `new_text` any chunk of the stream carries. -/
def maxDeltaLen (chunks : List Chunk) : Nat :=
  ((chunks.filterMap extractChunk).map pyLen).foldr max 0

/-- C6: on text content the classifier returns `"code"` exactly when the
weighted code score exceeds 10, else `"structured_data"` exactly when the
weighted structured score exceeds 10, else `"natural_text"`; non-text
content returns its own type; 11 copies of `"def "` classify as code and an
indicator-free string as natural text. -/
theorem C6_classifier (c : Content) :
    (c.type = "text" →
      ((analyze_content_type c = "code" ↔
          10 < weightedScore code_indicators c.content) ∧
        (analyze_content_type c = "structured_data" ↔
          weightedScore code_indicators c.content ≤ 10 ∧
            10 < weightedScore structured_indicators c.content) ∧
        (analyze_content_type c = "natural_text" ↔
          weightedScore code_indicators c.content ≤ 10 ∧
            weightedScore structured_indicators c.content ≤ 10))) ∧
      (c.type ≠ "text" → analyze_content_type c = c.type) ∧
      analyze_content_type ⟨"text", pyJoin "" (List.replicate 11 "def "), ""⟩ = "code" ∧
      analyze_content_type
        ⟨"text", "hello world this is a test clipboard entry", ""⟩ = "natural_text" := by
  refine ⟨?_, ?_, by decide, by decide⟩
  · intro ht
    by_cases h1 : 10 < weightedScore code_indicators c.content <;>
      by_cases h2 : 10 < weightedScore structured_indicators c.content <;>
        refine ⟨?_, ?_, ?_⟩ <;> simp +decide [analyze_content_type, ht, h1, h2] <;> omega
  · intro ht
    simp [analyze_content_type, ht]

/-- Concrete instantiation of `C6_classifier`: non-text content returns its
own type. -/
theorem C6_classifier_witness :
    analyze_content_type ⟨"image", "assets/x.png", "h"⟩ = "image" :=
  (C6_classifier ⟨"image", "assets/x.png", "h"⟩).2.1 (by decide)

theorem gate_skip_eq (hash : HashArg → String) (save : String → String)
    (text : String) (shot : Option String) (last : Option String)
    (hg : gateSkip hash text shot last) :
    process_clipboard_content hash save text shot last = (none, last) := by
  unfold process_clipboard_content
  rw [if_pos hg]

theorem gate_accept_eq (hash : HashArg → String) (save : String → String)
    (text : String) (shot : Option String) (last : Option String)
    (hg : ¬gateSkip hash text shot last) :
    (process_clipboard_content hash save text shot last).2 =
      some (hash (captureHashArg text shot)) := by
  unfold process_clipboard_content
  rw [if_neg hg]
  by_cases ht : text ≠ ""
  · simp [ht]
  · cases shot <;> simp [ht]

/-- C7 (amended): the gate skips — producing no item and leaving the
fingerprint untouched — exactly when the fingerprint repeats or the text is
shorter than `min_content_length`; otherwise it records the new fingerprint;
re-capturing the same content immediately afterwards always skips, so the
second and all subsequent identical captures are skipped.  (However a
capture with neither text nor screenshot produces no item *and* still
updates the fingerprint, which is what `C7_counterexample` shows.) -/
theorem C7_dedup_gate (hash : HashArg → String) (save : String → String)
    (text : String) (shot : Option String) (last : Option String) :
    (gateSkip hash text shot last →
        process_clipboard_content hash save text shot last = (none, last)) ∧
      (¬gateSkip hash text shot last →
        (process_clipboard_content hash save text shot last).2 =
          some (hash (captureHashArg text shot))) ∧
      process_clipboard_content hash save text shot
          (process_clipboard_content hash save text shot last).2 =
        (none, (process_clipboard_content hash save text shot last).2) := by
  refine ⟨gate_skip_eq hash save text shot last,
    gate_accept_eq hash save text shot last, ?_⟩
  by_cases hg : gateSkip hash text shot last
  · rw [gate_skip_eq hash save text shot last hg]
    exact gate_skip_eq hash save text shot last hg
  · rw [gate_accept_eq hash save text shot last hg]
    exact gate_skip_eq hash save text shot _ (Or.inl rfl)

/-- Concrete instantiation of `C7_dedup_gate`: a repeated fingerprint is
skipped and leaves the fingerprint unchanged. -/
theorem C7_dedup_gate_witness :
    process_clipboard_content (fun _ => "h") (fun p => p)
        "hello clipboard" none (some "h") = (none, some "h") :=
  (C7_dedup_gate (fun _ => "h") (fun p => p) "hello clipboard" none (some "h")).1
    (by decide)

/-- C7, as stated, is false in one corner: a capture with empty clipboard
text and no screenshot produces no item — a "skip" in the claim's sense —
yet still overwrites the last-seen fingerprint with the digest of the
absent content. -/
theorem C7_counterexample :
    process_clipboard_content (fun _ => "d41d8cd9") (fun p => p) "" none none =
        (none, some "d41d8cd9") ∧
      (some "d41d8cd9" : Option String) ≠ none := by
  constructor
  · decide
  · decide

/-- C10: every dataset record reports `agent_count = len(AGENT_CONFIG) = 3`,
whatever `ai_response` holds; in particular when every persona is skipped on
error the analysis mapping is empty while `agent_count` still reads 3. -/
theorem C10_agent_count (ts : String) (c : Content)
    (resp : List (String × AgentResult)) (oracle : String → String) :
    (save_to_dataset ts c resp).analysis_metadata.agent_count = 3 ∧
      (resp.length < 3 →
        (save_to_dataset ts c resp).analysis_metadata.agent_count ≠ resp.length) ∧
      ((∀ p, pyStrip (oracle p) = "" ∨
          pyStartsWith "Error:" (pyStrip (oracle p)) = true) →
        analyze_content oracle c = [] ∧
        (save_to_dataset ts c
            (analyze_content oracle c)).analysis_metadata.agent_count = 3) := by
  have hcount : ∀ r : List (String × AgentResult),
      (save_to_dataset ts c r).analysis_metadata.agent_count = 3 := fun _ => rfl
  refine ⟨hcount resp, ?_, ?_⟩
  · intro h
    rw [hcount resp]
    omega
  · intro ho
    have hstep : ∀ (acc : List String × List (String × AgentResult))
        (ag : String × Agent),
        analyzeStep oracle (analyze_content_type c) c acc ag = acc := by
      intro acc ag
      rcases ho (buildPrompt (analyze_content_type c) c acc.1 ag.2) with h | h <;>
        simp [analyzeStep, h]
    refine ⟨?_, hcount _⟩
    unfold analyze_content AGENT_CONFIG
    rw [List.foldl_cons, hstep, List.foldl_cons, hstep, List.foldl_cons, hstep,
      List.foldl_nil]

/-- Concrete instantiation of `C10_agent_count`: an empty analysis mapping
still yields `agent_count = 3`. -/
theorem C10_agent_count_witness :
    (save_to_dataset "t" ⟨"text", "hello world again", "h"⟩
        []).analysis_metadata.agent_count = 3 ∧
      (save_to_dataset "t" ⟨"text", "hello world again", "h"⟩
        []).analysis_metadata.agent_count ≠ ([] : List (String × AgentResult)).length :=
  ⟨(C10_agent_count "t" ⟨"text", "hello world again", "h"⟩ [] (fun _ => "")).1,
    (C10_agent_count "t" ⟨"text", "hello world again", "h"⟩ [] (fun _ => "")).2.1
      (by decide)⟩

/-- C8: when every attempt raises a transport error, the adapter performs
exactly `retry_attempts = 3` calls, sleeps the fixed `retry_delay` between
consecutive attempts, and returns the `"Error:"`-prefixed sentinel response
instead of raising. -/
theorem C8_retry_exhaustion (oracle : Nat → AttemptOutcome)
    (h : ∀ i < retry_attempts, ∃ e, oracle i = .transportError e) :
    query_llama_stack oracle =
        { response := "Error: Llama Stack server unavailable", isError := true,
          attempts := retry_attempts, delays := [retry_delay, retry_delay] } ∧
      pyStartsWith "Error:" (query_llama_stack oracle).response = true := by
  obtain ⟨e0, h0⟩ := h 0 (by decide)
  obtain ⟨e1, h1⟩ := h 1 (by decide)
  obtain ⟨e2, h2⟩ := h 2 (by decide)
  have hq : query_llama_stack oracle =
      { response := "Error: Llama Stack server unavailable", isError := true,
        attempts := retry_attempts, delays := [retry_delay, retry_delay] } := by
    unfold query_llama_stack
    rw [show List.range retry_attempts = [0, 1, 2] from by decide]
    unfold queryGo
    rw [h0]
    simp +decide only [retry_attempts]
    unfold queryGo
    rw [h1]
    simp +decide only [retry_attempts]
    unfold queryGo
    rw [h2]
    simp +decide [retry_attempts, retry_delay]
  exact ⟨hq, by rw [hq]; decide⟩

/-- Concrete instantiation of `C8_retry_exhaustion`. -/
theorem C8_retry_exhaustion_witness :
    query_llama_stack (fun _ => .transportError "connection refused") =
      { response := "Error: Llama Stack server unavailable", isError := true,
        attempts := retry_attempts, delays := [retry_delay, retry_delay] } :=
  (C8_retry_exhaustion (fun _ => .transportError "connection refused")
    (fun _ _ => ⟨"connection refused", rfl⟩)).1

theorem pyLen_append (a b : String) : pyLen (a ++ b) = pyLen a + pyLen b := by
  simp [pyLen, String.data_append]

theorem pyLen_pyStrip_le (s : String) : pyLen (pyStrip s) ≤ pyLen s := by
  unfold pyLen pyStrip
  calc (((s.data.dropWhile Char.isWhitespace).reverse.dropWhile
          Char.isWhitespace).reverse).length
      = ((s.data.dropWhile Char.isWhitespace).reverse.dropWhile
          Char.isWhitespace).length := by rw [List.length_reverse]
    _ ≤ (s.data.dropWhile Char.isWhitespace).reverse.length :=
        (List.dropWhile_suffix _).sublist.length_le
    _ = (s.data.dropWhile Char.isWhitespace).length := by rw [List.length_reverse]
    _ ≤ s.data.length := (List.dropWhile_suffix _).sublist.length_le

theorem extract_le_maxDeltaLen (c : Chunk) (rest : List Chunk) (nt : String)
    (hx : extractChunk c = some nt) : pyLen nt ≤ maxDeltaLen (c :: rest) ∧
      maxDeltaLen rest ≤ maxDeltaLen (c :: rest) := by
  unfold maxDeltaLen
  rw [List.filterMap_cons, hx]
  simp

theorem maxDeltaLen_skip (c : Chunk) (rest : List Chunk)
    (hx : extractChunk c = none) : maxDeltaLen (c :: rest) = maxDeltaLen rest := by
  unfold maxDeltaLen
  rw [List.filterMap_cons, hx]

theorem assembleChunks_length (chunks : List Chunk) :
    ∀ (full : String) (seen : List String), pyLen full ≤ 1000 →
      pyLen (assembleChunks chunks full seen) ≤ 1000 + maxDeltaLen chunks := by
  induction chunks with
  | nil =>
    intro full seen hf
    unfold assembleChunks
    omega
  | cons c rest ih =>
    intro full seen hf
    unfold assembleChunks
    cases hx : extractChunk c with
    | none =>
      rw [maxDeltaLen_skip c rest hx]
      show pyLen (assembleChunks rest full seen) ≤ 1000 + maxDeltaLen rest
      exact ih full seen hf
    | some nt =>
      obtain ⟨hle, hrest⟩ := extract_le_maxDeltaLen c rest nt hx
      show pyLen (if nt ∈ seen then
            if 1000 < pyLen full then full else assembleChunks rest full seen
          else if 1000 < pyLen (full ++ nt) then full ++ nt
          else assembleChunks rest (full ++ nt) (nt :: seen)) ≤
        1000 + maxDeltaLen (c :: rest)
      by_cases hseen : nt ∈ seen
      · rw [if_pos hseen]
        by_cases hlen : 1000 < pyLen full
        · rw [if_pos hlen]; omega
        · rw [if_neg hlen]
          have := ih full seen hf
          omega
      · rw [if_neg hseen]
        by_cases hlen : 1000 < pyLen (full ++ nt)
        · rw [if_pos hlen]
          rw [pyLen_append]
          omega
        · rw [if_neg hlen]
          have := ih (full ++ nt) (nt :: seen) (by omega)
          omega

set_option maxRecDepth 100000 in
/-- C9, as stated, is false: the 1000-character ceiling is only checked
*after* a delta is appended, so a single long delta makes the adapter return
a response longer than 1000 characters. -/
theorem C9_counterexample :
    pyLen (query_llama_stack
        (fun _ => .stream [.eventDelta (String.mk (List.replicate 1001 'a'))])).response =
      1001 ∧ 1000 < 1001 := by
  constructor
  · decide
  · decide

/-- C9 (amended): the adapter stops consuming the stream once the
accumulated response exceeds 1000 characters, and the check runs only after
a delta has been appended, so the returned response exceeds 1000 characters
by at most the length of the longest delta in the stream; the sentinel error
path is far below the ceiling. -/
theorem C9_response_cap (oracle : Nat → AttemptOutcome) (D : Nat)
    (h : ∀ i chunks, oracle i = .stream chunks → maxDeltaLen chunks ≤ D) :
    pyLen (query_llama_stack oracle).response ≤ 1000 + D := by
  have hgo : ∀ (l : List Nat) (made : Nat) (delays : List Nat),
      pyLen (queryGo oracle l made delays).response ≤ 1000 + D := by
    intro l
    induction l with
    | nil =>
      intro made delays
      have h0 : pyLen (queryGo oracle [] made delays).response = 0 := rfl
      omega
    | cons attempt rest ih =>
      intro made delays
      unfold queryGo
      cases hoa : oracle attempt with
      | stream chunks =>
        show pyLen (pyStrip (assembleChunks chunks "" [])) ≤ 1000 + D
        refine le_trans (pyLen_pyStrip_le _) ?_
        refine le_trans (assembleChunks_length chunks "" [] (by decide)) ?_
        have hD := h attempt chunks hoa
        omega
      | transportError e =>
        show pyLen ((if attempt < retry_attempts - 1 then
            queryGo oracle rest (made + 1) (delays ++ [retry_delay])
          else
            { response := "Error: Llama Stack server unavailable", isError := true,
              attempts := made + 1, delays := delays } : QueryResult).response) ≤
          1000 + D
        by_cases hc : attempt < retry_attempts - 1
        · rw [if_pos hc]
          exact ih (made + 1) (delays ++ [retry_delay])
        · rw [if_neg hc]
          have h37 : pyLen "Error: Llama Stack server unavailable" = 37 := by decide
          show pyLen "Error: Llama Stack server unavailable" ≤ 1000 + D
          omega
  exact hgo (List.range retry_attempts) 0 []

/-- Concrete instantiation of `C9_response_cap`. -/
theorem C9_response_cap_witness :
    pyLen (query_llama_stack (fun _ => .stream [])).response ≤ 1000 + 0 :=
  C9_response_cap (fun _ => .stream []) 0
    (fun _ chunks hc => by cases hc; decide)

/-- The prompt `analyze_content` renders for the curator (no prior thoughts). -/
def firstPrompt (content : Content) : String :=
  buildPrompt (analyze_content_type content) content [] curator

/-- The prompt rendered for the analyst once the curator answered `r1`. -/
def secondPrompt (content : Content) (r1 : String) : String :=
  buildPrompt (analyze_content_type content) content [r1] analyst

/-- The prompt rendered for the synthesizer once the curator answered `r1`
and the analyst `r2`. -/
def thirdPrompt (content : Content) (r1 r2 : String) : String :=
  buildPrompt (analyze_content_type content) content [r1, r2] synthesizer

/-- `needle` occurs contiguously inside `hay`. -/
def SubstringOf (needle hay : String) : Prop := ∃ x y, hay = x ++ needle ++ y

theorem format_two_thoughts (r1 r2 : String) :
    format_previous_thoughts [r1, r2] =
      "curator:\n" ++ pyJoin "\n" (colonLines r1) ++ "\n" ++
        ("analyst:\n" ++ pyJoin "\n" (colonLines r2)) := by
  unfold format_previous_thoughts
  rw [if_neg (by simp)]
  show ("curator" ++ ":\n" ++ pyJoin "\n" (colonLines r1)) ++ "\n" ++
      ("analyst" ++ ":\n" ++ pyJoin "\n" (colonLines r2)) = _
  have hc : ("curator" : String) ++ ":\n" = "curator:\n" := by decide
  have ha : ("analyst" : String) ++ ":\n" = "analyst:\n" := by decide
  rw [hc, ha]

/-- C2: with curator and analyst both producing non-empty, non-error
responses `r1`, `r2`, the loop renders exactly the three prompts in persona
order; the synthesizer's prompt contains the colon-line-filtered output of
both earlier personas; the curator's prompt is the same for *every* oracle
(so it can contain no later persona's output) and carries the
`no_previous: true` sentinel, and the analyst's prompt depends only on the
curator's response. -/
theorem C2_context_chaining (oracle : String → String) (content : Content)
    (r1 r2 : String)
    (hr1 : pyStrip (oracle (firstPrompt content)) = r1)
    (hr2 : pyStrip (oracle (secondPrompt content r1)) = r2)
    (h1 : ¬(r1 = "" ∨ pyStartsWith "Error:" r1 = true))
    (h2 : ¬(r2 = "" ∨ pyStartsWith "Error:" r2 = true)) :
    agentPrompts oracle content =
        [firstPrompt content, secondPrompt content r1, thirdPrompt content r1 r2] ∧
      SubstringOf (pyJoin "\n" (colonLines r1)) (thirdPrompt content r1 r2) ∧
      SubstringOf (pyJoin "\n" (colonLines r2)) (thirdPrompt content r1 r2) ∧
      (∀ g : String → String,
        (agentPrompts g content).getD 0 "" = firstPrompt content) ∧
      (∀ g : String → String, pyStrip (g (firstPrompt content)) = r1 →
        (agentPrompts g content).getD 1 "" = secondPrompt content r1) ∧
      format_previous_thoughts [] = "no_previous: true" ∧
      SubstringOf "no_previous: true" (firstPrompt content) := by
  refine ⟨?_, ?_, ?_, ?_, ?_, rfl, ?_⟩
  · unfold agentPrompts analyzeWithPrompts AGENT_CONFIG
    simp only [List.foldl_cons, List.foldl_nil, analyzeStep, List.nil_append]
    rw [show buildPrompt (analyze_content_type content) content [] curator =
          firstPrompt content from rfl, hr1, if_neg h1]
    simp only [List.nil_append]
    rw [show buildPrompt (analyze_content_type content) content [r1] analyst =
          secondPrompt content r1 from rfl, hr2, if_neg h2]
    simp only [List.nil_append]
    rfl
  · refine ⟨"Content type detected: " ++ analyze_content_type content ++ "\n\n" ++
      synthesizer.tplBefore ++ "curator:\n",
      "\n" ++ ("analyst:\n" ++ pyJoin "\n" (colonLines r2)) ++
        synthesizer.tplAfter ++
        ("\n\nContent to analyze:\n" ++ truncate_content content.content), ?_⟩
    unfold thirdPrompt buildPrompt renderTemplate
    rw [format_two_thoughts]
    apply String.ext
    simp [String.data_append, List.append_assoc]
  · refine ⟨"Content type detected: " ++ analyze_content_type content ++ "\n\n" ++
      synthesizer.tplBefore ++
        ("curator:\n" ++ pyJoin "\n" (colonLines r1) ++ "\n" ++ "analyst:\n"),
      synthesizer.tplAfter ++
        ("\n\nContent to analyze:\n" ++ truncate_content content.content), ?_⟩
    unfold thirdPrompt buildPrompt renderTemplate
    rw [format_two_thoughts]
    apply String.ext
    simp [String.data_append, List.append_assoc]
  · intro g
    unfold agentPrompts analyzeWithPrompts AGENT_CONFIG
    simp only [List.foldl_cons, List.foldl_nil, List.nil_append, List.cons_append]
    rfl
  · intro g hg
    unfold agentPrompts analyzeWithPrompts AGENT_CONFIG
    simp only [List.foldl_cons, List.foldl_nil, analyzeStep, List.nil_append]
    rw [show buildPrompt (analyze_content_type content) content [] curator =
          firstPrompt content from rfl, hg, if_neg h1]
    simp only [List.nil_append, List.cons_append]
    rfl
  · refine ⟨"Content type detected: " ++ analyze_content_type content ++ "\n\n" ++
      curator.tplBefore,
      curator.tplAfter ++
        ("\n\nContent to analyze:\n" ++ truncate_content content.content), ?_⟩
    unfold firstPrompt buildPrompt renderTemplate
    rw [show format_previous_thoughts [] = "no_previous: true" from rfl]
    apply String.ext
    simp [String.data_append, List.append_assoc]

/-- Concrete instantiation of `C2_context_chaining` with the stub oracle
that always answers `key: value`. -/
theorem C2_context_chaining_witness :
    agentPrompts (fun _ => "key: value")
        ⟨"text", "hello world this is a test clipboard entry", "h"⟩ =
      [firstPrompt ⟨"text", "hello world this is a test clipboard entry", "h"⟩,
        secondPrompt ⟨"text", "hello world this is a test clipboard entry", "h"⟩
          "key: value",
        thirdPrompt ⟨"text", "hello world this is a test clipboard entry", "h"⟩
          "key: value" "key: value"] :=
  (C2_context_chaining (fun _ => "key: value")
    ⟨"text", "hello world this is a test clipboard entry", "h"⟩
    "key: value" "key: value" (by decide) (by decide) (by decide) (by decide)).1

example : rawPairs "topic: space" = [["topic", " space"]] := by decide
example : rawPairs "time: 12:30" = [["time", " 12", "30"]] := by decide
example : get_novelty_score .init "time: 12:30" =
    .error "ValueError: not enough / too many values to unpack" := by
  norm_num [get_novelty_score, show rawPairs "time: 12:30" = [["time", " 12", "30"]] by decide,
    unpackPairs, Except.map]
example : get_novelty_score .init "no colon here" = .ok 0 := by
  norm_num [get_novelty_score, show rawPairs "no colon here" = [] by decide]
example : get_novelty_score .init "topic: space" = .ok 1 := by
  norm_num [get_novelty_score, show rawPairs "topic: space" = [["topic", " space"]] by decide,
    unpackPairs, listMean, NoveltyTracker.init, Except.map,
    show pyStrip "topic" = "topic" by decide, show pyStrip " space" = "space" by decide]

end LlamaStack
